import Mathlib

/-!
Verification of the terrain / movement core of the multiplayer-goblin-chase
repository, embedded shallowly in Lean 4.

Modelling conventions, shared by all definitions below:

* JavaScript numbers are modelled as `ℚ` (all arithmetic appearing in the
  verified statements is exact: divisions such as `1000 / 4`, halves, and
  integer-valued floors), grid coordinates and dimensions as `ℤ`.
* The repository's source tree contains two concatenated revisions of
  `player-system.ts`; the embedding follows the later revision (the one that
  imports `generateUUID`, throws `NoValidPositionError`, and clears the
  stepping flag through a 50 ms timeout), which is the revision exercised by
  the repository's integration tests.
* A thrown error is modelled as `Option.none`; per-tile decoration payloads
  (`details`: grass blades / puddles / waves) are render-only data that no
  gameplay logic reads, and are omitted from the `Tile` structure.
* `Math.random()` results are modelled as an arbitrary stream `r : ℕ → ℚ` of
  draws, consumed left to right; an out-of-range array access (unreachable
  while every draw lies in `[0,1)`) is modelled by the placeholder
  `defaultTile` / a no-op write.
-/

namespace Goblin

/-- Terrain kinds, from `game-constants.ts` (`enum TileType`). -/
inductive TileType where
  | GRASS
  | SWAMP
  | WATER
deriving DecidableEq, Repr

/-- One grid cell, from `map-types.ts` (`interface Tile`); the render-only
`details` payload is omitted. -/
structure Tile where
  type : TileType
  x : ℤ
  y : ℤ
  walkable : Bool
  movementSpeed : ℚ
deriving DecidableEq, Repr

/-- Generation parameters, from `map-types.ts` (`interface MapGenerationParams`). -/
structure MapGenerationParams where
  waterPercentage : ℚ
  swampPercentage : ℚ
  noiseFactor : ℚ
  smoothingPasses : ℕ
deriving DecidableEq, Repr

/-- `DEFAULT_GENERATION_PARAMS` from `map-types.ts`. -/
def DEFAULT_GENERATION_PARAMS : MapGenerationParams :=
  { waterPercentage := 1/5, swampPercentage := 3/10, noiseFactor := 3/5, smoothingPasses := 2 }

/-- The game map, from `map-types.ts` (`interface GameMap`): `tiles` is
row-major, indexed `[y][x]`. -/
structure GameMap where
  width : ℤ
  height : ℤ
  tiles : List (List Tile)
  seed : Option ℤ := none
  generationParams : Option MapGenerationParams := none
deriving DecidableEq, Repr

/-- `createTile` from `map-generator.ts`: derives `walkable` and
`movementSpeed` from the kind (the `details` payload it also generates is
render-only and omitted). -/
def createTile (type : TileType) (x y : ℤ) : Tile :=
  match type with
  | .GRASS => { type, x, y, walkable := true, movementSpeed := 1 }
  | .SWAMP => { type, x, y, walkable := true, movementSpeed := 1/2 }
  | .WATER => { type, x, y, walkable := false, movementSpeed := 0 }

/-- Placeholder for the (undefined) result of an out-of-range array read in
JavaScript; unreachable in all verified statements, which either hypothesise a
well-formed grid or access only indices created in range. -/
def defaultTile : Tile := createTile .WATER 0 0

/-- Read `m.tiles[y][x]`; out-of-range reads give `defaultTile` (in
JavaScript such a read is undefined / a crash — see `defaultTile`). -/
def tileAtD (m : GameMap) (x y : ℤ) : Tile :=
  if 0 ≤ x ∧ 0 ≤ y then (m.tiles.getD y.toNat []).getD x.toNat defaultTile
  else defaultTile

/-- Write `m.tiles[y][x] = t`; the out-of-range case (unreachable for draws in
`[0,1)`) is a no-op. -/
def setTile (m : GameMap) (x y : ℤ) (t : Tile) : GameMap :=
  if 0 ≤ x ∧ 0 ≤ y then
    { m with tiles := m.tiles.set y.toNat ((m.tiles.getD y.toNat []).set x.toNat t) }
  else m

/-- `createEmptyMap` from `map-generator.ts`: a `width × height` grid of
Grass tiles (a non-positive dimension yields zero iterations of the
corresponding loop, exactly as the JavaScript `for` loops do). -/
def createEmptyMap (width height : ℤ) : GameMap :=
  { width, height,
    tiles := (List.range height.toNat).map fun (y : ℕ) =>
      (List.range width.toNat).map fun (x : ℕ) => createTile .GRASS (x : ℤ) (y : ℤ) }

/-- `Math.floor(r * n)`, the random-index computation used by the generator. -/
def randomInt (r : ℚ) (n : ℤ) : ℤ := ⌊r * (n : ℚ)⌋

/-- The `as TileType` cast of a random index in the noise loop; a draw in
`[0,1)` yields index 0, 1 or 2, so the final catch-all is unreachable there. -/
def tileTypeOfIdx (i : ℤ) : TileType :=
  if i = 1 then .SWAMP
  else if i = 2 then .WATER
  else .GRASS

/-- The water-scatter loop of `generateMap`: `count` iterations, each drawing
an `x` and a `y` from the stream (index `i` is the next unconsumed draw) and
overwriting that cell with a Water tile. -/
def scatterWater (r : ℕ → ℚ) (width height : ℤ) : ℕ → ℕ → GameMap → GameMap
  | _, 0, m => m
  | i, k + 1, m =>
      let x := randomInt (r i) width
      let y := randomInt (r (i + 1)) height
      scatterWater r width height (i + 2) k (setTile m x y (createTile .WATER x y))

/-- The swamp-scatter loop of `generateMap`: as `scatterWater`, but the cell
is overwritten only if its current kind is Grass. -/
def scatterSwamp (r : ℕ → ℚ) (width height : ℤ) : ℕ → ℕ → GameMap → GameMap
  | _, 0, m => m
  | i, k + 1, m =>
      let x := randomInt (r i) width
      let y := randomInt (r (i + 1)) height
      let m := if (tileAtD m x y).type = .GRASS then setTile m x y (createTile .SWAMP x y) else m
      scatterSwamp r width height (i + 2) k m

/-- The noise loop of `generateMap`: each iteration draws `x`, `y` and a
uniformly random kind and overwrites the cell. -/
def scatterNoise (r : ℕ → ℚ) (width height : ℤ) : ℕ → ℕ → GameMap → GameMap
  | _, 0, m => m
  | i, k + 1, m =>
      let x := randomInt (r i) width
      let y := randomInt (r (i + 1)) height
      let t := tileTypeOfIdx (randomInt (r (i + 2)) 3)
      scatterNoise r width height (i + 3) k (setTile m x y (createTile t x y))

/-- The closed integer interval `[a, b]` as a list (empty when `b < a`),
modelling a JavaScript `for (let v = a; v <= b; v++)` loop. -/
def intRange (a b : ℤ) : List ℤ :=
  (List.range (b + 1 - a).toNat).map fun (k : ℕ) => a + (k : ℤ)

/-- The neighbor cells visited by the counting loops of `smoothMap`: `ny` from
`max(0, y-1)` to `min(height-1, y+1)`, `nx` likewise, the cell itself
excluded (grid edges clamp; nothing wraps). -/
def mooreCells (m : GameMap) (x y : ℤ) : List (ℤ × ℤ) :=
  (intRange (max 0 (y - 1)) (min (m.height - 1) (y + 1))).flatMap fun ny =>
    (intRange (max 0 (x - 1)) (min (m.width - 1) (x + 1))).filterMap fun nx =>
      if nx = x ∧ ny = y then none else some (nx, ny)

/-- The neighbor count `neighborCounts[t]` computed by `smoothMap` for cell
`(x, y)` of the pre-pass grid. -/
def neighborCount (m : GameMap) (x y : ℤ) (t : TileType) : ℕ :=
  (mooreCells m x y).countP fun c => decide ((tileAtD m c.1 c.2).type = t)

/-- The per-cell decision of `smoothMap`, reading only the pre-pass grid:
5+ Water neighbors turn the cell to Water; else a Grass cell with 2+ Water
neighbors turns to Swamp; else a non-Grass cell with 6+ Grass neighbors turns
to Grass; else the kind is unchanged. -/
def smoothNewType (m : GameMap) (x y : ℤ) : TileType :=
  let waterN := neighborCount m x y .WATER
  let grassN := neighborCount m x y .GRASS
  let cur := (tileAtD m x y).type
  if 5 ≤ waterN then .WATER
  else if cur = .GRASS ∧ 2 ≤ waterN then .SWAMP
  else if cur ≠ .GRASS ∧ 6 ≤ grassN then .GRASS
  else cur

/-- `cloneTile` from `map-generator.ts`, restricted to the modelled fields
(the omitted `details` payload is what the deep clone is for). -/
def cloneTile (t : Tile) : Tile :=
  { type := t.type, x := t.x, y := t.y, walkable := t.walkable, movementSpeed := t.movementSpeed }

/-- `smoothMap` from `map-generator.ts`. The source first fills `newTiles`
with clones of every cell and then overwrites the changed ones with
`createTile newType x y`; per cell that is: a changed cell becomes
`createTile`, an unchanged one the clone of the pre-pass cell. All reads go
to the pre-pass grid `m`, so the pass is order-independent. -/
def smoothMap (m : GameMap) : GameMap :=
  { m with tiles := (List.range m.height.toNat).map fun (y : ℕ) =>
      (List.range m.width.toNat).map fun (x : ℕ) =>
        let cur := tileAtD m (x : ℤ) (y : ℤ)
        let nt := smoothNewType m (x : ℤ) (y : ℤ)
        if nt ≠ cur.type then createTile nt (x : ℤ) (y : ℤ) else cloneTile cur }

/-- The `for (let i = 0; i < params.smoothingPasses; i++) map = smoothMap(map)`
loop of `generateMap`. -/
def smoothIter : ℕ → GameMap → GameMap
  | 0, m => m
  | k + 1, m => smoothIter k (smoothMap m)

/-- `generateMap` from `map-generator.ts`: Grass grid, water scatter, swamp
scatter, noise, smoothing passes, then the seed and params are recorded. The
stream `r` supplies the `Math.random()` draws in source order (the seed draw
first, then two per scatter iteration, three per noise iteration). -/
def generateMap (width height : ℤ) (params : MapGenerationParams) (r : ℕ → ℚ) : GameMap :=
  let seed := randomInt (r 0) 1000000
  let m0 := createEmptyMap width height
  let wc := (⌊((width * height : ℤ) : ℚ) * params.waterPercentage⌋).toNat
  let sc := (⌊((width * height : ℤ) : ℚ) * params.swampPercentage⌋).toNat
  let nc := (⌊((width * height : ℤ) : ℚ) * params.noiseFactor⌋).toNat
  let m1 := scatterWater r width height 1 wc m0
  let m2 := scatterSwamp r width height (1 + 2 * wc) sc m1
  let m3 := scatterNoise r width height (1 + 2 * wc + 2 * sc) nc m2
  let m4 := smoothIter params.smoothingPasses m3
  { m4 with seed := some seed, generationParams := some params }

/-- `TILE_WIDTH` from `game-constants.ts`. -/
def TILE_WIDTH : ℚ := 64

/-- `TILE_HEIGHT` from `game-constants.ts`. -/
def TILE_HEIGHT : ℚ := 32

/-- `calculateIsometricPosition` from `map-renderer.ts`: the isometric
projection of grid coordinates to screen pixels. -/
def calculateIsometricPosition (x y offsetX offsetY : ℚ) : ℚ × ℚ :=
  ((x - y) * (TILE_WIDTH / 2) + offsetX, (x + y) * (TILE_HEIGHT / 2) + offsetY)

/-- Movement directions, from `player-types.ts` (`enum Direction`). -/
inductive Direction where
  | NONE
  | UP
  | DOWN
  | LEFT
  | RIGHT
deriving DecidableEq, Repr

/-- The input snapshot, from `player-types.ts` (`interface InputState`). -/
structure InputState where
  up : Bool
  down : Bool
  left : Bool
  right : Bool
deriving DecidableEq, Repr

/-- Player movement state, from `player-types.ts`. -/
structure PlayerMovementState where
  direction : Direction
  isMoving : Bool
  targetX : Option ℤ
  targetY : Option ℤ
  lastMoveTime : ℚ
deriving DecidableEq, Repr

/-- Player position, from `player-types.ts` (`renderX`/`renderY` are held for
fidelity; `updatePlayerMovement` never touches them). -/
structure PlayerPosition where
  gridX : ℤ
  gridY : ℤ
  renderX : ℚ
  renderY : ℚ
deriving DecidableEq, Repr

/-- Player stats, from `player-types.ts`. -/
structure PlayerStats where
  health : ℚ
  maxHealth : ℚ
  attackPower : ℚ
  movementSpeed : ℚ
deriving DecidableEq, Repr

/-- The player entity, from `player-types.ts` (`interface Player`). -/
structure Player where
  id : String
  name : String
  position : PlayerPosition
  movement : PlayerMovementState
  stats : PlayerStats
  currentTileType : TileType
deriving DecidableEq, Repr

/-- `getMovementDelay` from `player-system.ts`: base delay `1000 / baseSpeed`
ms, doubled when the tile kind matched on is Swamp; the Grass case and the
default case of the switch both return the base delay. -/
def getMovementDelay (tileType : TileType) (baseSpeed : ℚ) : ℚ :=
  let baseDelay := 1000 / baseSpeed
  match tileType with
  | .SWAMP => baseDelay * 2
  | _ => baseDelay

/-- `isValidMove` from `player-system.ts`: the target must be inside
`[0,width)×[0,height)` and its tile walkable. -/
def isValidMove (m : GameMap) (gridX gridY dx dy : ℤ) : Bool :=
  let targetX := gridX + dx
  let targetY := gridY + dy
  if targetX < 0 ∨ targetY < 0 ∨ m.width ≤ targetX ∨ m.height ≤ targetY then false
  else (tileAtD m targetX targetY).walkable

/-- The if/else-if chain of `updatePlayerMovement` that resolves the input
snapshot into a unit vector and a facing, with the source's priority order
Up, Down, Left, Right. -/
def resolveInput (i : InputState) : ℤ × ℤ × Direction :=
  if i.up then (0, -1, .UP)
  else if i.down then (0, 1, .DOWN)
  else if i.left then (-1, 0, .LEFT)
  else if i.right then (1, 0, .RIGHT)
  else (0, 0, .NONE)

/-- `updatePlayerMovement` from `player-system.ts` (return value = the state
of the mutated player when the call returns): an entity that is already
moving ignores the tick entirely; otherwise facing is recorded, and if a
direction is asserted, the target valid, and the terrain delay (computed from
the tile currently stood on) elapsed, the grid position commits instantly,
`lastMoveTime := now`, the current-tile kind is updated, and `isMoving` is
set (the source's 50 ms `setTimeout` that later clears `isMoving` is modelled
separately, by `tick`). -/
def updatePlayerMovement (p : Player) (i : InputState) (m : GameMap) (now : ℚ) : Player :=
  if p.movement.isMoving then p
  else
    let v := resolveInput i
    let dx := v.1
    let dy := v.2.1
    let p := { p with movement := { p.movement with direction := v.2.2 } }
    if dx = 0 ∧ dy = 0 then p
    else if isValidMove m p.position.gridX p.position.gridY dx dy then
      let targetX := p.position.gridX + dx
      let targetY := p.position.gridY + dy
      let currentTile := tileAtD m p.position.gridX p.position.gridY
      let targetTile := tileAtD m targetX targetY
      let movementDelay := getMovementDelay currentTile.type p.stats.movementSpeed
      if movementDelay ≤ now - p.movement.lastMoveTime then
        { p with
          movement := { p.movement with
            isMoving := true, targetX := some targetX, targetY := some targetY,
            lastMoveTime := now },
          currentTileType := targetTile.type,
          position := { p.position with gridX := targetX, gridY := targetY } }
      else p
    else p

/-- The settle interval of the accepted-step branch (`setTimeout(..., 50)`). -/
def SETTLE_MS : ℚ := 50

/-- A player together with the pending settle timeout, if one is scheduled:
the source's `setTimeout(() => isMoving = false, 50)` is modelled as the
deadline `now + 50` stored alongside the entity. -/
structure PlayerSim where
  player : Player
  settleTimer : Option ℚ
deriving DecidableEq, Repr

/-- One frame of the single-threaded event loop at timestamp `now`: a due
settle timeout fires first (clearing `isMoving`), then `updatePlayerMovement`
runs on the tick's input; an accepted step (the only way `isMoving` flips
from false to true) schedules the settle timeout for `now + 50`. -/
def tick (s : PlayerSim) (i : InputState) (m : GameMap) (now : ℚ) : PlayerSim :=
  let fired : PlayerSim :=
    match s.settleTimer with
    | some d =>
        if d ≤ now then
          { player := { s.player with movement := { s.player.movement with isMoving := false } },
            settleTimer := none }
        else s
    | none => s
  let p := updatePlayerMovement fired.player i m now
  { player := p,
    settleTimer :=
      if fired.player.movement.isMoving = false ∧ p.movement.isMoving = true then
        some (now + SETTLE_MS)
      else fired.settleTimer }

/-- `isInBounds` from `player-system.ts`. -/
def isInBounds (m : GameMap) (x y : ℤ) : Bool :=
  decide (0 ≤ x ∧ 0 ≤ y ∧ x < m.width ∧ y < m.height)

/-- The candidate cells of one ring of `findValidStartPosition`, in source
visit order: for each `x` across the ring the top-row then the bottom-row
cell, then for each interior `y` the left-column then the right-column cell. -/
def ringCandidates (cx cy : ℤ) (ring : ℕ) : List (ℤ × ℤ) :=
  let r := (ring : ℤ)
  ((intRange (cx - r) (cx + r)).flatMap fun x => [(x, cy - r), (x, cy + r)]) ++
    ((intRange (cy - r + 1) (cy + r - 1)).flatMap fun y => [(cx - r, y), (cx + r, y)])

/-- `findValidStartPosition` from `player-system.ts` (the revision that
throws `NoValidPositionError`, modelled as `none`): empty-map guard, center
fast path, expanding-ring search up to `min(100, max(width, height))`, full
row-major scan fallback, and failure when no walkable tile exists. The
source's guarded raw reads `map.tiles[y][x].walkable` are modelled with
`tileAtD`, which agrees with them on every well-formed grid. -/
def findValidStartPosition (m : GameMap) : Option (ℤ × ℤ) :=
  if m.tiles.length = 0 then none
  else
    let centerX := m.width.fdiv 2
    let centerY := m.height.fdiv 2
    if centerY < (m.tiles.length : ℤ) ∧
        centerX < ((m.tiles.getD centerY.toNat []).length : ℤ) ∧
        (tileAtD m centerX centerY).walkable then
      some (centerX, centerY)
    else
      let maxSearchRadius := min 100 (max m.width m.height)
      let ringHit :=
        ((List.range (maxSearchRadius - 1).toNat).flatMap fun k =>
          ringCandidates centerX centerY (k + 1)).find? fun c =>
            isInBounds m c.1 c.2 && (tileAtD m c.1 c.2).walkable
      match ringHit with
      | some c => some c
      | none =>
          let scanHit :=
            ((List.range m.height.toNat).flatMap fun (y : ℕ) =>
              (List.range m.width.toNat).map fun (x : ℕ) => ((x : ℤ), (y : ℤ))).find? fun c =>
                (tileAtD m c.1 c.2).walkable
          match scanHit with
          | some c => some c
          | none => none

/-- Well-formedness of a grid: the `tiles` container really is
`height` rows of `width` cells (the invariant stated for `GameMap` in
`map-types.ts`). -/
def WF (m : GameMap) : Prop :=
  m.tiles.length = m.height.toNat ∧ ∀ row ∈ m.tiles, row.length = m.width.toNat

instance (m : GameMap) : Decidable (WF m) := by
  unfold WF; infer_instance

/-! ### Spec-side definitions

These follow the specification's wording, to be compared against the
definitions above, which follow the source. -/

/-- The spec's `terrainSpeedFactor`: 1 for Grass, 2 for Swamp (the inverse of
the tile's speed multiplier); the spec leaves it undefined for Water, so the
Water value here is arbitrary and no verified statement depends on it. -/
def terrainSpeedFactor : TileType → ℚ
  | .GRASS => 1
  | .SWAMP => 2
  | .WATER => 0

/-- The per-kind attribute table of the spec's Terrain Model: Grass walkable
with multiplier 1, Swamp walkable with 1/2, Water not walkable with 0. -/
def specSpeedMultiplier : TileType → ℚ
  | .GRASS => 1
  | .SWAMP => 1/2
  | .WATER => 0

/-- A tile is consistent with the spec's terrain table:
`walkable == (kind != Water)` and the fixed `speedMultiplier` value. -/
def tileConsistent (t : Tile) : Bool :=
  (t.walkable = decide (t.type ≠ .WATER)) && decide (t.movementSpeed = specSpeedMultiplier t.type)

/-- The eight Moore-neighborhood offsets of the spec's smoothing rule. -/
def mooreOffsets : List (ℤ × ℤ) :=
  [(-1, -1), (0, -1), (1, -1), (-1, 0), (1, 0), (-1, 1), (0, 1), (1, 1)]

/-- The spec's neighbor count: among the eight Moore offsets, those that land
inside the grid (clamped at edges, not wrapped) and carry kind `t`. -/
def specNeighborCount (m : GameMap) (x y : ℤ) (t : TileType) : ℕ :=
  (mooreOffsets.filter fun o =>
    decide (0 ≤ x + o.1 ∧ x + o.1 < m.width ∧ 0 ≤ y + o.2 ∧ y + o.2 < m.height)).countP
    fun o => decide ((tileAtD m (x + o.1) (y + o.2)).type = t)

/-- The cells counted by `specNeighborCount`: the in-bounds Moore neighbors
themselves. -/
def specCells (m : GameMap) (x y : ℤ) : List (ℤ × ℤ) :=
  (mooreOffsets.filter fun o =>
    decide (0 ≤ x + o.1 ∧ x + o.1 < m.width ∧ 0 ≤ y + o.2 ∧ y + o.2 < m.height)).map
    fun o => (x + o.1, y + o.2)

/-- The spec's per-cell smoothing rule, as a function of the cell's pre-pass
kind and its Water / Grass neighbor counts. -/
def specSmoothRule (cur : TileType) (waterN grassN : ℕ) : TileType :=
  if 5 ≤ waterN then .WATER
  else if cur = .GRASS ∧ 2 ≤ waterN then .SWAMP
  else if cur ≠ .GRASS ∧ 6 ≤ grassN then .GRASS
  else cur

/-! ### Concrete fixtures used by witnesses and counterexamples -/

/-- A 2×1 grid: Grass at (0,0), Grass at (1,0). -/
def mapGG : GameMap :=
  { width := 2, height := 1, tiles := [[createTile .GRASS 0 0, createTile .GRASS 1 0]] }

/-- A 2×1 grid: Swamp at (0,0), Grass at (1,0). -/
def mapSG : GameMap :=
  { width := 2, height := 1, tiles := [[createTile .SWAMP 0 0, createTile .GRASS 1 0]] }

/-- A 2×1 grid: Water at (0,0), Grass at (1,0). -/
def mapWG : GameMap :=
  { width := 2, height := 1, tiles := [[createTile .WATER 0 0, createTile .GRASS 1 0]] }

/-- A 2×2 grid of Water only (no walkable tile anywhere). -/
def mapWW : GameMap :=
  { width := 2, height := 2,
    tiles := [[createTile .WATER 0 0, createTile .WATER 1 0],
              [createTile .WATER 0 1, createTile .WATER 1 1]] }

/-- A 3×3 grid whose center (1,1) is Grass with exactly two Water neighbors
(at (0,0) and (2,0)) and six Grass neighbors. -/
def mapSmooth : GameMap :=
  { width := 3, height := 3,
    tiles := [[createTile .WATER 0 0, createTile .GRASS 1 0, createTile .WATER 2 0],
              [createTile .GRASS 0 1, createTile .GRASS 1 1, createTile .GRASS 2 1],
              [createTile .GRASS 0 2, createTile .GRASS 1 2, createTile .GRASS 2 2]] }

/-- A 3×3 grid of Water only. -/
def mapAllWater : GameMap :=
  { width := 3, height := 3,
    tiles := [[createTile .WATER 0 0, createTile .WATER 1 0, createTile .WATER 2 0],
              [createTile .WATER 0 1, createTile .WATER 1 1, createTile .WATER 2 1],
              [createTile .WATER 0 2, createTile .WATER 1 2, createTile .WATER 2 2]] }

/-- A stationary player at (0,0) standing on kind `t`, with the source's
default stats (`movementSpeed` 4 tiles/second) and `lastMoveTime` 0. -/
def playerOn (t : TileType) : Player :=
  { id := "p1", name := "Brave Warrior",
    position := { gridX := 0, gridY := 0, renderX := 0, renderY := 0 },
    movement := { direction := .NONE, isMoving := false, targetX := none, targetY := none,
                  lastMoveTime := 0 },
    stats := { health := 100, maxHealth := 100, attackPower := 10, movementSpeed := 4 },
    currentTileType := t }

/-- The input snapshot asserting only `right`. -/
def inputRight : InputState := { up := false, down := false, left := false, right := true }

/-- The input snapshot asserting nothing. -/
def inputNone : InputState := { up := false, down := false, left := false, right := false }

/-- Clearing or setting the stepping flag (the body of the settle timeout). -/
def setIsMoving (p : Player) (b : Bool) : Player :=
  { p with movement := { p.movement with isMoving := b } }

/-! ### Theorems -/

/-- C9: for every `gridX`, `gridY`, `originX`, `originY`, the isometric
projection returns exactly `screenX = (gridX - gridY) * 32 + originX` and
`screenY = (gridX + gridY) * 16 + originY` (with `tileWidth = 64`,
`tileHeight = 32`); in particular `project(0,0,0,0) = (0,0)`,
`project(1,0,0,0) = (32,16)` and `project(0,1,0,0) = (-32,16)`. -/
theorem projection_formula :
    (∀ x y originX originY : ℚ,
      calculateIsometricPosition x y originX originY =
        ((x - y) * 32 + originX, (x + y) * 16 + originY)) ∧
    calculateIsometricPosition 0 0 0 0 = (0, 0) ∧
    calculateIsometricPosition 1 0 0 0 = (32, 16) ∧
    calculateIsometricPosition 0 1 0 0 = (-32, 16) := by
  refine ⟨fun x y originX originY => ?_, ?_, ?_, ?_⟩ <;>
    simp [calculateIsometricPosition, TILE_WIDTH, TILE_HEIGHT, Prod.ext_iff] <;>
    norm_num

/-- C10 (implicit): `getMovementDelay` on a Water tile takes the switch's
default branch, returning the same `1000 / baseSpeed` delay as Grass — the
advertised inverse-multiplier rule is not applied to Water, and an entity
standing on Water is not frozen by the cooldown gate (concretely, the
default-stats entity on the Water cell of `mapWG` steps off it onto the
adjacent Grass cell at elapsed 300 ms). -/
theorem water_delay_uses_default_branch (baseSpeed : ℚ) :
    getMovementDelay .WATER baseSpeed = 1000 / baseSpeed ∧
    getMovementDelay .WATER baseSpeed = getMovementDelay .GRASS baseSpeed ∧
    (updatePlayerMovement (playerOn .WATER) inputRight mapWG 300).position.gridX = 1 := by
  refine ⟨rfl, rfl, ?_⟩
  simp only [updatePlayerMovement, resolveInput, inputRight, playerOn, mapWG, isValidMove,
    tileAtD, createTile, getMovementDelay, defaultTile]
  norm_num

/-! ### Movement helper lemmas -/

lemma createTile_type (t : TileType) (x y : ℤ) : (createTile t x y).type = t := by
  cases t <;> rfl

lemma resolveInput_none_iff (i : InputState) :
    (resolveInput i).2.2 = .NONE ↔ ((resolveInput i).1 = 0 ∧ (resolveInput i).2.1 = 0) := by
  rcases i with ⟨u, d, l, r⟩
  cases u <;> cases d <;> cases l <;> cases r <;> simp [resolveInput]

lemma isValidMove_iff (m : GameMap) (gx gy dx dy : ℤ) :
    isValidMove m gx gy dx dy = true ↔
      (0 ≤ gx + dx ∧ gx + dx < m.width ∧ 0 ≤ gy + dy ∧ gy + dy < m.height ∧
        (tileAtD m (gx + dx) (gy + dy)).walkable = true) := by
  unfold isValidMove
  dsimp only
  split_ifs with h
  · constructor
    · intro hc; cases hc
    · rintro ⟨h1, h2, h3, h4, -⟩; omega
  · push_neg at h
    constructor
    · intro hw; exact ⟨by omega, by omega, by omega, by omega, hw⟩
    · rintro ⟨-, -, -, -, hw⟩; exact hw

lemma getMovementDelay_spec (t : TileType) (s : ℚ) (h : t ≠ .WATER) :
    getMovementDelay t s = 1000 / s * terrainSpeedFactor t := by
  cases t
  · simp [getMovementDelay, terrainSpeedFactor]
  · simp [getMovementDelay, terrainSpeedFactor]
  · exact absurd rfl h

/-- Case analysis of `updatePlayerMovement`: either the grid position is left
unchanged, or the move was validated, the cooldown had elapsed, the entity
was idle, and the position committed to the target cell. -/
lemma update_movement_cases (p : Player) (i : InputState) (m : GameMap) (now : ℚ) :
    ((updatePlayerMovement p i m now).position.gridX = p.position.gridX ∧
      (updatePlayerMovement p i m now).position.gridY = p.position.gridY) ∨
    (isValidMove m p.position.gridX p.position.gridY (resolveInput i).1 (resolveInput i).2.1
        = true ∧
      getMovementDelay (tileAtD m p.position.gridX p.position.gridY).type p.stats.movementSpeed
        ≤ now - p.movement.lastMoveTime ∧
      p.movement.isMoving = false ∧
      (updatePlayerMovement p i m now).position.gridX = p.position.gridX + (resolveInput i).1 ∧
      (updatePlayerMovement p i m now).position.gridY
        = p.position.gridY + (resolveInput i).2.1) := by
  unfold updatePlayerMovement
  dsimp only
  split_ifs with h1 h2 h3 h4
  · exact Or.inl ⟨rfl, rfl⟩
  · exact Or.inl ⟨rfl, rfl⟩
  · exact Or.inr ⟨h3, h4, by simpa using h1, rfl, rfl⟩
  · exact Or.inl ⟨rfl, rfl⟩
  · exact Or.inl ⟨rfl, rfl⟩

/-- The accepted-step branch of `updatePlayerMovement`, reached exactly when
the entity is idle, a direction is asserted, the target validates, and the
terrain cooldown has elapsed. -/
lemma update_movement_accepts (p : Player) (i : InputState) (m : GameMap) (now : ℚ)
    (hmov : p.movement.isMoving = false)
    (hdxy : ¬((resolveInput i).1 = 0 ∧ (resolveInput i).2.1 = 0))
    (hvalid : isValidMove m p.position.gridX p.position.gridY
      (resolveInput i).1 (resolveInput i).2.1 = true)
    (hdelay : getMovementDelay (tileAtD m p.position.gridX p.position.gridY).type
      p.stats.movementSpeed ≤ now - p.movement.lastMoveTime) :
    (updatePlayerMovement p i m now).position.gridX = p.position.gridX + (resolveInput i).1 ∧
    (updatePlayerMovement p i m now).position.gridY = p.position.gridY + (resolveInput i).2.1 ∧
    (updatePlayerMovement p i m now).movement.isMoving = true ∧
    (updatePlayerMovement p i m now).movement.lastMoveTime = now := by
  unfold updatePlayerMovement
  dsimp only
  rw [if_neg (by simp [hmov]), if_neg hdxy, if_pos hvalid, if_pos hdelay]
  exact ⟨rfl, rfl, rfl, rfl⟩

/-- C1: for an idle entity, a directed move onto an in-bounds walkable target
is accepted by `updatePlayerMovement` (the grid position commits to the
target) if and only if `now - lastStepTimestamp >= delay`, where
`delay = (1000 / baseSpeed) * terrainSpeedFactor(currentTileKind)` with
factor 1 on Grass and 2 on Swamp; in particular with `baseSpeed = 4` an
entity on Grass is rejected at elapsed 100 ms and accepted at 300 ms, and an
entity on Swamp is rejected at elapsed 100 ms and accepted at 600 ms. -/
theorem movement_cooldown_gate (p : Player) (i : InputState) (m : GameMap) (now : ℚ)
    (hmov : p.movement.isMoving = false)
    (hdir : (resolveInput i).2.2 ≠ .NONE)
    (htarget : 0 ≤ p.position.gridX + (resolveInput i).1 ∧
      p.position.gridX + (resolveInput i).1 < m.width ∧
      0 ≤ p.position.gridY + (resolveInput i).2.1 ∧
      p.position.gridY + (resolveInput i).2.1 < m.height ∧
      (tileAtD m (p.position.gridX + (resolveInput i).1)
        (p.position.gridY + (resolveInput i).2.1)).walkable = true)
    (hkind : (tileAtD m p.position.gridX p.position.gridY).type ≠ .WATER) :
    (((updatePlayerMovement p i m now).position.gridX
        = p.position.gridX + (resolveInput i).1 ∧
      (updatePlayerMovement p i m now).position.gridY
        = p.position.gridY + (resolveInput i).2.1) ↔
      1000 / p.stats.movementSpeed *
        terrainSpeedFactor (tileAtD m p.position.gridX p.position.gridY).type
        ≤ now - p.movement.lastMoveTime) ∧
    (updatePlayerMovement (playerOn .GRASS) inputRight mapGG 100).position.gridX = 0 ∧
    (updatePlayerMovement (playerOn .GRASS) inputRight mapGG 300).position.gridX = 1 ∧
    (updatePlayerMovement (playerOn .SWAMP) inputRight mapSG 100).position.gridX = 0 ∧
    (updatePlayerMovement (playerOn .SWAMP) inputRight mapSG 600).position.gridX = 1 := by
  have hdxy : ¬((resolveInput i).1 = 0 ∧ (resolveInput i).2.1 = 0) :=
    fun h => hdir ((resolveInput_none_iff i).mpr h)
  have hvalid : isValidMove m p.position.gridX p.position.gridY
      (resolveInput i).1 (resolveInput i).2.1 = true := (isValidMove_iff m _ _ _ _).mpr htarget
  refine ⟨⟨fun hpos => ?_, fun hdelay => ?_⟩, ?_, ?_, ?_, ?_⟩
  · rcases update_movement_cases p i m now with ⟨h1, h2⟩ | ⟨-, hd, -, -, -⟩
    · exact absurd ⟨by omega, by omega⟩ hdxy
    · rwa [getMovementDelay_spec _ _ hkind] at hd
  · have := update_movement_accepts p i m now hmov hdxy hvalid
      (by rwa [getMovementDelay_spec _ _ hkind])
    exact ⟨this.1, this.2.1⟩
  · simp only [updatePlayerMovement, resolveInput, inputRight, playerOn, mapGG, isValidMove,
      tileAtD, createTile, getMovementDelay, defaultTile]
    norm_num
  · simp only [updatePlayerMovement, resolveInput, inputRight, playerOn, mapGG, isValidMove,
      tileAtD, createTile, getMovementDelay, defaultTile]
    norm_num
  · simp only [updatePlayerMovement, resolveInput, inputRight, playerOn, mapSG, isValidMove,
      tileAtD, createTile, getMovementDelay, defaultTile]
    norm_num
  · simp only [updatePlayerMovement, resolveInput, inputRight, playerOn, mapSG, isValidMove,
      tileAtD, createTile, getMovementDelay, defaultTile]
    norm_num

/-- Witness for C1: the Grass entity with `baseSpeed = 4` stepping right onto
the walkable cell of `mapGG` at elapsed 300 ms, where the cooldown gate
resolves to accepted. -/
theorem movement_cooldown_gate_witness :
    (((updatePlayerMovement (playerOn .GRASS) inputRight mapGG 300).position.gridX
        = (playerOn .GRASS).position.gridX + (resolveInput inputRight).1 ∧
      (updatePlayerMovement (playerOn .GRASS) inputRight mapGG 300).position.gridY
        = (playerOn .GRASS).position.gridY + (resolveInput inputRight).2.1) ↔
      1000 / (playerOn .GRASS).stats.movementSpeed *
        terrainSpeedFactor
          (tileAtD mapGG (playerOn .GRASS).position.gridX (playerOn .GRASS).position.gridY).type
        ≤ 300 - (playerOn .GRASS).movement.lastMoveTime) ∧
    (updatePlayerMovement (playerOn .GRASS) inputRight mapGG 100).position.gridX = 0 ∧
    (updatePlayerMovement (playerOn .GRASS) inputRight mapGG 300).position.gridX = 1 ∧
    (updatePlayerMovement (playerOn .SWAMP) inputRight mapSG 100).position.gridX = 0 ∧
    (updatePlayerMovement (playerOn .SWAMP) inputRight mapSG 600).position.gridX = 1 :=
  movement_cooldown_gate (playerOn .GRASS) inputRight mapGG 300 rfl (by decide)
    (by refine ⟨by decide, by decide, by decide, by decide, by decide⟩) (by decide)

lemma resolveInput_up (i : InputState) (h : (resolveInput i).2.2 = .UP) :
    (resolveInput i).1 = 0 ∧ (resolveInput i).2.1 = -1 := by
  rcases i with ⟨u, d, l, r⟩
  cases u <;> cases d <;> cases l <;> cases r <;> simp_all [resolveInput]

lemma resolveInput_left (i : InputState) (h : (resolveInput i).2.2 = .LEFT) :
    (resolveInput i).1 = -1 ∧ (resolveInput i).2.1 = 0 := by
  rcases i with ⟨u, d, l, r⟩
  cases u <;> cases d <;> cases l <;> cases r <;> simp_all [resolveInput]

/-- Counterexample to C2 as stated: the entity standing on the Water cell
(0,0) of `mapWG` has an in-bounds grid position, yet after a call to
`updatePlayerMovement` (here with no input asserted) its position — unchanged
at (0,0) — does not lie on a walkable tile. -/
theorem position_invariant_counterexample :
    (0 ≤ (playerOn .WATER).position.gridX ∧ (playerOn .WATER).position.gridX < mapWG.width ∧
      0 ≤ (playerOn .WATER).position.gridY ∧ (playerOn .WATER).position.gridY < mapWG.height) ∧
    (updatePlayerMovement (playerOn .WATER) inputNone mapWG 0).position.gridX = 0 ∧
    (updatePlayerMovement (playerOn .WATER) inputNone mapWG 0).position.gridY = 0 ∧
    (tileAtD mapWG 0 0).walkable = false := by
  refine ⟨by decide, ?_, ?_, by decide⟩ <;> decide

/-- C2 (amended): for every call on an entity whose grid position is in
`[0,width)×[0,height)`, the position after the call is still in bounds; a
step whose target cell is out of bounds or whose target tile is not walkable
never changes the grid position (for every timestamp); if the entity
additionally starts on a walkable tile it remains on one; and an entity at
(0,0) stepping Up or Left is always rejected. (As frozen, the claim asserted
the post-state tile is walkable with no assumption on the starting tile —
refuted by `position_invariant_counterexample`.) -/
theorem position_invariant_amended (p : Player) (i : InputState) (m : GameMap) (now : ℚ)
    (hx : 0 ≤ p.position.gridX) (hx2 : p.position.gridX < m.width)
    (hy : 0 ≤ p.position.gridY) (hy2 : p.position.gridY < m.height) :
    (0 ≤ (updatePlayerMovement p i m now).position.gridX ∧
      (updatePlayerMovement p i m now).position.gridX < m.width ∧
      0 ≤ (updatePlayerMovement p i m now).position.gridY ∧
      (updatePlayerMovement p i m now).position.gridY < m.height) ∧
    ((¬(0 ≤ p.position.gridX + (resolveInput i).1 ∧
          p.position.gridX + (resolveInput i).1 < m.width ∧
          0 ≤ p.position.gridY + (resolveInput i).2.1 ∧
          p.position.gridY + (resolveInput i).2.1 < m.height) ∨
        (tileAtD m (p.position.gridX + (resolveInput i).1)
          (p.position.gridY + (resolveInput i).2.1)).walkable = false) →
      (updatePlayerMovement p i m now).position.gridX = p.position.gridX ∧
        (updatePlayerMovement p i m now).position.gridY = p.position.gridY) ∧
    ((tileAtD m p.position.gridX p.position.gridY).walkable = true →
      (tileAtD m (updatePlayerMovement p i m now).position.gridX
        (updatePlayerMovement p i m now).position.gridY).walkable = true) ∧
    ((p.position.gridX = 0 ∧ p.position.gridY = 0 ∧
        ((resolveInput i).2.2 = .UP ∨ (resolveInput i).2.2 = .LEFT)) →
      (updatePlayerMovement p i m now).position.gridX = 0 ∧
        (updatePlayerMovement p i m now).position.gridY = 0) := by
  refine ⟨?_, ?_, ?_, ?_⟩
  · rcases update_movement_cases p i m now with ⟨h1, h2⟩ | ⟨hv, -, -, h1, h2⟩
    · omega
    · rcases (isValidMove_iff m _ _ _ _).mp hv with ⟨b1, b2, b3, b4, -⟩
      omega
  · intro hbad
    rcases update_movement_cases p i m now with ⟨h1, h2⟩ | ⟨hv, -, -, -, -⟩
    · exact ⟨h1, h2⟩
    · rcases (isValidMove_iff m _ _ _ _).mp hv with ⟨b1, b2, b3, b4, bw⟩
      rcases hbad with hb | hb
      · exact absurd ⟨b1, b2, b3, b4⟩ hb
      · rw [bw] at hb; cases hb
  · intro hw
    rcases update_movement_cases p i m now with ⟨h1, h2⟩ | ⟨hv, -, -, h1, h2⟩
    · rwa [h1, h2]
    · rw [h1, h2]
      exact ((isValidMove_iff m _ _ _ _).mp hv).2.2.2.2
  · rintro ⟨hz1, hz2, hud⟩
    rcases update_movement_cases p i m now with ⟨h1, h2⟩ | ⟨hv, -, -, -, -⟩
    · rw [h1, h2]; exact ⟨hz1, hz2⟩
    · rcases (isValidMove_iff m _ _ _ _).mp hv with ⟨b1, b2, b3, b4, -⟩
      rcases hud with hu | hl
      · rcases resolveInput_up i hu with ⟨e1, e2⟩; omega
      · rcases resolveInput_left i hl with ⟨e1, e2⟩; omega

/-- Witness for C2 (amended): the default Grass entity at (0,0) of `mapGG`. -/
theorem position_invariant_amended_witness :
    (0 ≤ (updatePlayerMovement (playerOn .GRASS) inputRight mapGG 300).position.gridX ∧
      (updatePlayerMovement (playerOn .GRASS) inputRight mapGG 300).position.gridX < mapGG.width ∧
      0 ≤ (updatePlayerMovement (playerOn .GRASS) inputRight mapGG 300).position.gridY ∧
      (updatePlayerMovement (playerOn .GRASS) inputRight mapGG 300).position.gridY
        < mapGG.height) ∧
    ((¬(0 ≤ (playerOn .GRASS).position.gridX + (resolveInput inputRight).1 ∧
          (playerOn .GRASS).position.gridX + (resolveInput inputRight).1 < mapGG.width ∧
          0 ≤ (playerOn .GRASS).position.gridY + (resolveInput inputRight).2.1 ∧
          (playerOn .GRASS).position.gridY + (resolveInput inputRight).2.1 < mapGG.height) ∨
        (tileAtD mapGG ((playerOn .GRASS).position.gridX + (resolveInput inputRight).1)
          ((playerOn .GRASS).position.gridY + (resolveInput inputRight).2.1)).walkable
          = false) →
      (updatePlayerMovement (playerOn .GRASS) inputRight mapGG 300).position.gridX
          = (playerOn .GRASS).position.gridX ∧
        (updatePlayerMovement (playerOn .GRASS) inputRight mapGG 300).position.gridY
          = (playerOn .GRASS).position.gridY) ∧
    ((tileAtD mapGG (playerOn .GRASS).position.gridX
        (playerOn .GRASS).position.gridY).walkable = true →
      (tileAtD mapGG (updatePlayerMovement (playerOn .GRASS) inputRight mapGG 300).position.gridX
        (updatePlayerMovement (playerOn .GRASS) inputRight mapGG 300).position.gridY).walkable
        = true) ∧
    (((playerOn .GRASS).position.gridX = 0 ∧ (playerOn .GRASS).position.gridY = 0 ∧
        ((resolveInput inputRight).2.2 = .UP ∨ (resolveInput inputRight).2.2 = .LEFT)) →
      (updatePlayerMovement (playerOn .GRASS) inputRight mapGG 300).position.gridX = 0 ∧
        (updatePlayerMovement (playerOn .GRASS) inputRight mapGG 300).position.gridY = 0) :=
  position_invariant_amended (playerOn .GRASS) inputRight mapGG 300
    (by decide) (by decide) (by decide) (by decide)

/-- An entity that is already stepping ignores the tick entirely. -/
lemma update_movement_stepping (p : Player) (i : InputState) (m : GameMap) (now : ℚ)
    (hp : p.movement.isMoving = true) : updatePlayerMovement p i m now = p := by
  unfold updatePlayerMovement
  rw [if_pos hp]

/-- C3: an accepted step at time `now` (from an idle entity with no pending
settle timeout) leaves the entity in the Stepping state with the settle
timeout scheduled for `now + 50`; every tick strictly inside the settle
interval ignores input entirely (the whole simulation state — facing,
position, flag and timer — is unchanged); and a tick at or after `now + 50`
first transitions the entity back to Idle and only then processes its input
normally. -/
theorem stepping_settle_interval (s : PlayerSim) (i : InputState) (m : GameMap) (now : ℚ)
    (h0 : s.settleTimer = none) (h1 : s.player.movement.isMoving = false)
    (hacc : (tick s i m now).player.movement.isMoving = true) :
    (tick s i m now).settleTimer = some (now + SETTLE_MS) ∧
    (∀ i2 now2, now2 < now + SETTLE_MS → tick (tick s i m now) i2 m now2 = tick s i m now) ∧
    (∀ i2 now2, now + SETTLE_MS ≤ now2 →
      (tick (tick s i m now) i2 m now2).player
        = updatePlayerMovement (setIsMoving (tick s i m now).player false) i2 m now2) := by
  have hplayer : (tick s i m now).player = updatePlayerMovement s.player i m now := by
    simp [tick, h0]
  have hu : (updatePlayerMovement s.player i m now).movement.isMoving = true := by
    rw [← hplayer]; exact hacc
  have s1eq : tick s i m now =
      ⟨updatePlayerMovement s.player i m now, some (now + SETTLE_MS)⟩ := by
    simp [tick, h0, h1, hu]
  refine ⟨by rw [s1eq], fun i2 now2 hlt => ?_, fun i2 now2 hge => ?_⟩
  · rw [s1eq]
    simp only [tick]
    rw [if_neg (not_le.mpr hlt)]
    simp [update_movement_stepping _ i2 m now2 hu, hu]
  · rw [s1eq]
    simp only [tick]
    rw [if_pos hge]
    simp [setIsMoving]

/-- Witness for C3: the idle default Grass entity on `mapGG` stepping right
at time 300 (cooldown long elapsed), which is an accepted step. -/
theorem stepping_settle_interval_witness :
    (tick ⟨playerOn .GRASS, none⟩ inputRight mapGG 300).settleTimer
      = some (300 + SETTLE_MS) ∧
    (∀ i2 now2, now2 < 300 + SETTLE_MS →
      tick (tick ⟨playerOn .GRASS, none⟩ inputRight mapGG 300) i2 mapGG now2
        = tick ⟨playerOn .GRASS, none⟩ inputRight mapGG 300) ∧
    (∀ i2 now2, 300 + SETTLE_MS ≤ now2 →
      (tick (tick ⟨playerOn .GRASS, none⟩ inputRight mapGG 300) i2 mapGG now2).player
        = updatePlayerMovement
            (setIsMoving (tick ⟨playerOn .GRASS, none⟩ inputRight mapGG 300).player false)
            i2 mapGG now2) :=
  stepping_settle_interval ⟨playerOn .GRASS, none⟩ inputRight mapGG 300 rfl rfl
    (by simp only [tick, updatePlayerMovement, resolveInput, inputRight, playerOn, mapGG,
          isValidMove, tileAtD, createTile, getMovementDelay, defaultTile]
        norm_num)

/-! ### Generator helper lemmas -/

/-- A per-tile predicate holding everywhere on a grid. -/
def AllTiles (m : GameMap) (P : Tile → Prop) : Prop :=
  ∀ row ∈ m.tiles, ∀ t ∈ row, P t

lemma cloneTile_id (t : Tile) : cloneTile t = t := rfl

lemma getD_mem_or {α : Type} (l : List α) (n : ℕ) (d : α) : l.getD n d ∈ l ∨ l.getD n d = d := by
  by_cases h : n < l.length
  · left
    rw [List.getD_eq_getElem l d h]
    exact l.getElem_mem h
  · right
    exact List.getD_eq_default l d (le_of_not_lt h)

lemma allTiles_tileAtD {m : GameMap} {P : Tile → Prop} (hm : AllTiles m P)
    (hd : P defaultTile) (x y : ℤ) : P (tileAtD m x y) := by
  unfold tileAtD
  split_ifs with h
  · rcases getD_mem_or (m.tiles.getD y.toNat []) x.toNat defaultTile with ht | ht
    · rcases getD_mem_or m.tiles y.toNat [] with hrow | hrow
      · exact hm _ hrow _ ht
      · rw [hrow] at ht; cases ht
    · rw [ht]; exact hd
  · exact hd

lemma allTiles_setTile {m : GameMap} {P : Tile → Prop} (hm : AllTiles m P)
    {x y : ℤ} {t : Tile} (ht : P t) : AllTiles (setTile m x y t) P := by
  unfold setTile
  split_ifs with h
  · intro row hrow tt htt
    rcases List.mem_or_eq_of_mem_set hrow with hrow2 | rfl
    · exact hm _ hrow2 _ htt
    · rcases List.mem_or_eq_of_mem_set htt with htt2 | rfl
      · rcases getD_mem_or m.tiles y.toNat [] with hr | hr
        · exact hm _ hr _ htt2
        · rw [hr] at htt2; cases htt2
      · exact ht
  · exact hm

lemma allTiles_createEmptyMap {P : Tile → Prop} (hP : ∀ t x y, P (createTile t x y))
    (w h : ℤ) : AllTiles (createEmptyMap w h) P := by
  intro row hrow t ht
  simp only [createEmptyMap, List.mem_map, List.mem_range] at hrow
  rcases hrow with ⟨y, hy, rfl⟩
  simp only [List.mem_map, List.mem_range] at ht
  rcases ht with ⟨x, hx, rfl⟩
  exact hP _ _ _

lemma allTiles_scatterWater {P : Tile → Prop} (hP : ∀ t x y, P (createTile t x y))
    (r : ℕ → ℚ) (w h : ℤ) :
    ∀ (k i : ℕ) (m : GameMap), AllTiles m P → AllTiles (scatterWater r w h i k m) P := by
  intro k
  induction k with
  | zero => intro i m hm; simpa [scatterWater] using hm
  | succ k ih =>
      intro i m hm
      simp only [scatterWater]
      exact ih _ _ (allTiles_setTile hm (hP _ _ _))

lemma allTiles_scatterSwamp {P : Tile → Prop} (hP : ∀ t x y, P (createTile t x y))
    (r : ℕ → ℚ) (w h : ℤ) :
    ∀ (k i : ℕ) (m : GameMap), AllTiles m P → AllTiles (scatterSwamp r w h i k m) P := by
  intro k
  induction k with
  | zero => intro i m hm; simpa [scatterSwamp] using hm
  | succ k ih =>
      intro i m hm
      simp only [scatterSwamp]
      refine ih _ _ ?_
      split_ifs with hcond
      · exact allTiles_setTile hm (hP _ _ _)
      · exact hm

lemma allTiles_scatterNoise {P : Tile → Prop} (hP : ∀ t x y, P (createTile t x y))
    (r : ℕ → ℚ) (w h : ℤ) :
    ∀ (k i : ℕ) (m : GameMap), AllTiles m P → AllTiles (scatterNoise r w h i k m) P := by
  intro k
  induction k with
  | zero => intro i m hm; simpa [scatterNoise] using hm
  | succ k ih =>
      intro i m hm
      simp only [scatterNoise]
      exact ih _ _ (allTiles_setTile hm (hP _ _ _))

lemma allTiles_smoothMap {P : Tile → Prop} (hP : ∀ t x y, P (createTile t x y))
    {m : GameMap} (hm : AllTiles m P) : AllTiles (smoothMap m) P := by
  intro row hrow t ht
  simp only [smoothMap, List.mem_map, List.mem_range] at hrow
  rcases hrow with ⟨y, hy, rfl⟩
  simp only [List.mem_map, List.mem_range] at ht
  rcases ht with ⟨x, hx, rfl⟩
  split_ifs with hcond
  · exact hP _ _ _
  · rw [cloneTile_id]
    exact allTiles_tileAtD hm (hP .WATER 0 0) _ _

lemma allTiles_smoothIter {P : Tile → Prop} (hP : ∀ t x y, P (createTile t x y)) :
    ∀ (k : ℕ) (m : GameMap), AllTiles m P → AllTiles (smoothIter k m) P := by
  intro k
  induction k with
  | zero => intro m hm; simpa [smoothIter] using hm
  | succ k ih =>
      intro m hm
      simp only [smoothIter]
      exact ih _ (allTiles_smoothMap hP hm)

/-- Every tile of a generated grid is some `createTile` output, so any
property of all `createTile` outputs holds of all its tiles. -/
lemma allTiles_generateMap (P : Tile → Prop) (hP : ∀ t x y, P (createTile t x y))
    (w h : ℤ) (params : MapGenerationParams) (r : ℕ → ℚ) :
    AllTiles (generateMap w h params r) P := by
  unfold generateMap
  dsimp only
  exact allTiles_smoothIter hP params.smoothingPasses _
    (allTiles_scatterNoise hP r w h _ _ _
      (allTiles_scatterSwamp hP r w h _ _ _
        (allTiles_scatterWater hP r w h _ _ _ (allTiles_createEmptyMap hP w h))))

lemma createTile_consistent (t : TileType) (x y : ℤ) :
    tileConsistent (createTile t x y) = true := by
  cases t <;> simp [tileConsistent, createTile, specSpeedMultiplier]

/-- C4: every grid produced by `generateMap` — any dimensions, parameters and
random draws — satisfies the terrain table on every tile:
`walkable == (kind != Water)` and the kind's fixed `speedMultiplier`
(Grass 1, Swamp 1/2, Water 0). -/
theorem generated_terrain_consistent (w h : ℤ) (params : MapGenerationParams) (r : ℕ → ℚ) :
    ((generateMap w h params r).tiles.all fun row => row.all tileConsistent) = true := by
  rw [List.all_eq_true]
  intro row hrow
  rw [List.all_eq_true]
  intro t ht
  exact allTiles_generateMap (fun tile => tileConsistent tile = true) createTile_consistent
    w h params r row hrow t ht

/-! ### Grid shape lemmas -/

lemma width_setTile (m : GameMap) (x y : ℤ) (t : Tile) : (setTile m x y t).width = m.width := by
  unfold setTile
  split_ifs <;> rfl

lemma height_setTile (m : GameMap) (x y : ℤ) (t : Tile) :
    (setTile m x y t).height = m.height := by
  unfold setTile
  split_ifs <;> rfl

lemma WF_setTile {m : GameMap} (hWF : WF m) (x y : ℤ) (t : Tile) : WF (setTile m x y t) := by
  unfold setTile
  split_ifs with h
  · by_cases hy : y.toNat < m.tiles.length
    · refine ⟨by simpa using hWF.1, ?_⟩
      intro row hrow
      rcases List.mem_or_eq_of_mem_set hrow with h2 | rfl
      · exact hWF.2 _ h2
      · rw [List.length_set, List.getD_eq_getElem _ _ hy]
        exact hWF.2 _ (m.tiles.getElem_mem hy)
    · rw [List.set_eq_of_length_le (le_of_not_lt hy)]
      exact hWF
  · exact hWF

lemma tiles_createEmptyMap (w h : ℤ) :
    (createEmptyMap w h).tiles = (List.range h.toNat).map fun (y : ℕ) =>
      (List.range w.toNat).map fun (x : ℕ) => createTile .GRASS (x : ℤ) (y : ℤ) := rfl

lemma WF_createEmptyMap (w h : ℤ) : WF (createEmptyMap w h) := by
  constructor
  · rw [tiles_createEmptyMap, List.length_map, List.length_range]
    rfl
  · intro row hrow
    rw [tiles_createEmptyMap, List.mem_map] at hrow
    rcases hrow with ⟨y, hy, rfl⟩
    rw [List.length_map, List.length_range]
    rfl

lemma width_scatterWater (r : ℕ → ℚ) (w h : ℤ) :
    ∀ (k i : ℕ) (m : GameMap), (scatterWater r w h i k m).width = m.width := by
  intro k
  induction k with
  | zero => intro i m; simp [scatterWater]
  | succ k ih => intro i m; simp only [scatterWater]; rw [ih, width_setTile]

lemma height_scatterWater (r : ℕ → ℚ) (w h : ℤ) :
    ∀ (k i : ℕ) (m : GameMap), (scatterWater r w h i k m).height = m.height := by
  intro k
  induction k with
  | zero => intro i m; simp [scatterWater]
  | succ k ih => intro i m; simp only [scatterWater]; rw [ih, height_setTile]

lemma WF_scatterWater (r : ℕ → ℚ) (w h : ℤ) :
    ∀ (k i : ℕ) (m : GameMap), WF m → WF (scatterWater r w h i k m) := by
  intro k
  induction k with
  | zero => intro i m hm; simpa [scatterWater] using hm
  | succ k ih => intro i m hm; simp only [scatterWater]; exact ih _ _ (WF_setTile hm _ _ _)

lemma width_scatterSwamp (r : ℕ → ℚ) (w h : ℤ) :
    ∀ (k i : ℕ) (m : GameMap), (scatterSwamp r w h i k m).width = m.width := by
  intro k
  induction k with
  | zero => intro i m; simp [scatterSwamp]
  | succ k ih =>
      intro i m
      simp only [scatterSwamp]
      rw [ih]
      split_ifs
      · rw [width_setTile]
      · rfl

lemma height_scatterSwamp (r : ℕ → ℚ) (w h : ℤ) :
    ∀ (k i : ℕ) (m : GameMap), (scatterSwamp r w h i k m).height = m.height := by
  intro k
  induction k with
  | zero => intro i m; simp [scatterSwamp]
  | succ k ih =>
      intro i m
      simp only [scatterSwamp]
      rw [ih]
      split_ifs
      · rw [height_setTile]
      · rfl

lemma WF_scatterSwamp (r : ℕ → ℚ) (w h : ℤ) :
    ∀ (k i : ℕ) (m : GameMap), WF m → WF (scatterSwamp r w h i k m) := by
  intro k
  induction k with
  | zero => intro i m hm; simpa [scatterSwamp] using hm
  | succ k ih =>
      intro i m hm
      simp only [scatterSwamp]
      refine ih _ _ ?_
      split_ifs
      · exact WF_setTile hm _ _ _
      · exact hm

lemma width_scatterNoise (r : ℕ → ℚ) (w h : ℤ) :
    ∀ (k i : ℕ) (m : GameMap), (scatterNoise r w h i k m).width = m.width := by
  intro k
  induction k with
  | zero => intro i m; simp [scatterNoise]
  | succ k ih => intro i m; simp only [scatterNoise]; rw [ih, width_setTile]

lemma height_scatterNoise (r : ℕ → ℚ) (w h : ℤ) :
    ∀ (k i : ℕ) (m : GameMap), (scatterNoise r w h i k m).height = m.height := by
  intro k
  induction k with
  | zero => intro i m; simp [scatterNoise]
  | succ k ih => intro i m; simp only [scatterNoise]; rw [ih, height_setTile]

lemma WF_scatterNoise (r : ℕ → ℚ) (w h : ℤ) :
    ∀ (k i : ℕ) (m : GameMap), WF m → WF (scatterNoise r w h i k m) := by
  intro k
  induction k with
  | zero => intro i m hm; simpa [scatterNoise] using hm
  | succ k ih => intro i m hm; simp only [scatterNoise]; exact ih _ _ (WF_setTile hm _ _ _)

lemma width_smoothMap (m : GameMap) : (smoothMap m).width = m.width := rfl

lemma height_smoothMap (m : GameMap) : (smoothMap m).height = m.height := rfl

lemma tiles_smoothMap (m : GameMap) :
    (smoothMap m).tiles = (List.range m.height.toNat).map fun (y : ℕ) =>
      (List.range m.width.toNat).map fun (x : ℕ) =>
        if smoothNewType m (x : ℤ) (y : ℤ) ≠ (tileAtD m (x : ℤ) (y : ℤ)).type then
          createTile (smoothNewType m (x : ℤ) (y : ℤ)) (x : ℤ) (y : ℤ)
        else cloneTile (tileAtD m (x : ℤ) (y : ℤ)) := rfl

lemma WF_smoothMap (m : GameMap) : WF (smoothMap m) := by
  constructor
  · rw [tiles_smoothMap, List.length_map, List.length_range]
    rfl
  · intro row hrow
    rw [tiles_smoothMap, List.mem_map] at hrow
    rcases hrow with ⟨y, hy, rfl⟩
    rw [List.length_map, List.length_range]
    rfl

lemma width_smoothIter : ∀ (k : ℕ) (m : GameMap), (smoothIter k m).width = m.width := by
  intro k
  induction k with
  | zero => intro m; simp [smoothIter]
  | succ k ih => intro m; simp only [smoothIter]; rw [ih, width_smoothMap]

lemma height_smoothIter : ∀ (k : ℕ) (m : GameMap), (smoothIter k m).height = m.height := by
  intro k
  induction k with
  | zero => intro m; simp [smoothIter]
  | succ k ih => intro m; simp only [smoothIter]; rw [ih, height_smoothMap]

lemma WF_smoothIter : ∀ (k : ℕ) (m : GameMap), WF m → WF (smoothIter k m) := by
  intro k
  induction k with
  | zero => intro m hm; simpa [smoothIter] using hm
  | succ k ih => intro m hm; simp only [smoothIter]; exact ih _ (WF_smoothMap m)

lemma width_generateMap (w h : ℤ) (params : MapGenerationParams) (r : ℕ → ℚ) :
    (generateMap w h params r).width = w := by
  unfold generateMap
  dsimp only
  rw [width_smoothIter, width_scatterNoise, width_scatterSwamp, width_scatterWater]
  rfl

lemma height_generateMap (w h : ℤ) (params : MapGenerationParams) (r : ℕ → ℚ) :
    (generateMap w h params r).height = h := by
  unfold generateMap
  dsimp only
  rw [height_smoothIter, height_scatterNoise, height_scatterSwamp, height_scatterWater]
  rfl

lemma WF_generateMap (w h : ℤ) (params : MapGenerationParams) (r : ℕ → ℚ) :
    WF (generateMap w h params r) := by
  unfold generateMap
  dsimp only
  exact WF_smoothIter _ _
    (WF_scatterNoise r w h _ _ _
      (WF_scatterSwamp r w h _ _ _
        (WF_scatterWater r w h _ _ _ (WF_createEmptyMap w h))))

/-- Counterexample to C7 as stated: `generateMap` called with width 0 (a
non-positive dimension) does not fail — no dimension check exists anywhere in
the source — and returns a degenerate grid: width 0 with a single empty row
of tiles. -/
theorem no_dimension_check_counterexample :
    (generateMap 0 1 ⟨0, 0, 0, 0⟩ (fun _ => 0)).width = 0 ∧
    (generateMap 0 1 ⟨0, 0, 0, 0⟩ (fun _ => 0)).tiles = [[]] := by
  refine ⟨width_generateMap 0 1 _ _, ?_⟩
  norm_num [generateMap, createEmptyMap, scatterWater, scatterSwamp, scatterNoise, smoothIter,
    randomInt, List.range_succ]

/-- C7 (amended): `generateMap` performs no dimension validation: called with
a zero width or height (and any parameters and draws) it simply returns the
degenerate grid — zero tiles in total, the requested dimensions recorded —
rather than failing with an `InvalidDimensions` error. -/
theorem generate_degenerate_grid_amended (w h : ℤ) (params : MapGenerationParams) (r : ℕ → ℚ)
    (hw : 0 ≤ w) (hh : 0 ≤ h) (h0 : w = 0 ∨ h = 0) :
    (generateMap w h params r).tiles.flatten = [] ∧
    (generateMap w h params r).width = w ∧ (generateMap w h params r).height = h := by
  refine ⟨?_, width_generateMap w h params r, height_generateMap w h params r⟩
  have hWF := WF_generateMap w h params r
  rw [List.flatten_eq_nil_iff]
  intro row hrow
  rcases h0 with rfl | rfl
  · have hlen := hWF.2 row hrow
    rw [width_generateMap] at hlen
    have hrow0 : row.length = 0 := by simpa using hlen
    exact List.length_eq_zero.mp hrow0
  · have hlen := hWF.1
    rw [height_generateMap] at hlen
    have htiles : (generateMap w 0 params r).tiles = [] :=
      List.length_eq_zero.mp (by simpa using hlen)
    rw [htiles] at hrow
    cases hrow

/-- Witness for C7 (amended): width 0, height 1, default parameters. -/
theorem generate_degenerate_grid_amended_witness :
    (generateMap 0 1 DEFAULT_GENERATION_PARAMS (fun _ => 0)).tiles.flatten = [] ∧
    (generateMap 0 1 DEFAULT_GENERATION_PARAMS (fun _ => 0)).width = 0 ∧
    (generateMap 0 1 DEFAULT_GENERATION_PARAMS (fun _ => 0)).height = 1 :=
  generate_degenerate_grid_amended 0 1 DEFAULT_GENERATION_PARAMS (fun _ => 0)
    (by norm_num) (by norm_num) (Or.inl rfl)

/-! ### Start-position search -/

lemma walkable_tileAtD_false {m : GameMap}
    (hnone : ∀ row ∈ m.tiles, ∀ t ∈ row, t.walkable = false) (x y : ℤ) :
    (tileAtD m x y).walkable = false :=
  allTiles_tileAtD hnone rfl x y

/-- C8: on a grid with zero walkable tiles, `findValidStartPosition` (invoked
by `createPlayer` and `setMap`) fails with its no-valid-position error
(modelled as `none`) rather than returning any position: the center fast
path, every expanding-ring candidate and the full row-major scan all reject,
and the final fallback throws. -/
theorem no_walkable_tile_error (m : GameMap)
    (hnone : ∀ row ∈ m.tiles, ∀ t ∈ row, t.walkable = false) :
    findValidStartPosition m = none := by
  unfold findValidStartPosition
  dsimp only
  split_ifs with h1 h2
  · rfl
  · rw [walkable_tileAtD_false hnone] at h2
    exact absurd h2.2.2 (by simp)
  · have hfind1 : ∀ (l : List (ℤ × ℤ)),
        l.find? (fun c => isInBounds m c.1 c.2 && (tileAtD m c.1 c.2).walkable) = none := by
      intro l
      rw [List.find?_eq_none]
      intro c hc
      rw [walkable_tileAtD_false hnone, Bool.and_false]
      simp
    have hfind2 : ∀ (l : List (ℤ × ℤ)),
        l.find? (fun c => (tileAtD m c.1 c.2).walkable) = none := by
      intro l
      rw [List.find?_eq_none]
      intro c hc
      rw [walkable_tileAtD_false hnone]
      simp
    rw [hfind1, hfind2]

/-- Witness for C8: the all-Water 2×2 grid `mapWW`. -/
theorem no_walkable_tile_error_witness : findValidStartPosition mapWW = none :=
  no_walkable_tile_error mapWW (by decide)

/-! ### Smoothing lemmas -/

lemma mem_intRange {a b k : ℤ} : k ∈ intRange a b ↔ a ≤ k ∧ k ≤ b := by
  unfold intRange
  rw [List.mem_map]
  constructor
  · rintro ⟨n, hn, rfl⟩
    rw [List.mem_range] at hn
    omega
  · intro h
    exact ⟨(k - a).toNat, by rw [List.mem_range]; omega, by omega⟩

lemma mem_mooreCells {m : GameMap} {x y : ℤ} {c : ℤ × ℤ} :
    c ∈ mooreCells m x y ↔
      (max 0 (x - 1) ≤ c.1 ∧ c.1 ≤ min (m.width - 1) (x + 1) ∧
        max 0 (y - 1) ≤ c.2 ∧ c.2 ≤ min (m.height - 1) (y + 1) ∧ ¬(c.1 = x ∧ c.2 = y)) := by
  rcases c with ⟨cx, cy⟩
  unfold mooreCells
  rw [List.mem_flatMap]
  constructor
  · rintro ⟨ny, hny, hmem⟩
    rw [mem_intRange] at hny
    rw [List.mem_filterMap] at hmem
    rcases hmem with ⟨nx, hnx, hif⟩
    rw [mem_intRange] at hnx
    by_cases hself : nx = x ∧ ny = y
    · rw [if_pos hself] at hif; cases hif
    · rw [if_neg hself] at hif
      cases hif
      exact ⟨hnx.1, hnx.2, hny.1, hny.2, hself⟩
  · rintro ⟨h1, h2, h3, h4, h5⟩
    refine ⟨cy, by rw [mem_intRange]; exact ⟨h3, h4⟩, ?_⟩
    rw [List.mem_filterMap]
    exact ⟨cx, by rw [mem_intRange]; exact ⟨h1, h2⟩, by rw [if_neg h5]⟩

lemma tileAtD_mem {m : GameMap} (hWF : WF m) {x y : ℤ}
    (hx : 0 ≤ x) (hx2 : x < m.width) (hy : 0 ≤ y) (hy2 : y < m.height) :
    ∃ row ∈ m.tiles, tileAtD m x y ∈ row := by
  have hyl : y.toNat < m.tiles.length := by rw [hWF.1]; omega
  have hxl : x.toNat < (m.tiles[y.toNat]).length := by
    rw [hWF.2 _ (m.tiles.getElem_mem hyl)]; omega
  unfold tileAtD
  rw [if_pos ⟨hx, hy⟩, List.getD_eq_getElem _ _ hyl, List.getD_eq_getElem _ _ hxl]
  exact ⟨m.tiles[y.toNat], m.tiles.getElem_mem hyl, (m.tiles[y.toNat]).getElem_mem hxl⟩

lemma tileAtD_type_of_allTiles {m : GameMap} {P : Tile → Prop} (hWF : WF m)
    (hm : AllTiles m P) {x y : ℤ}
    (hx : 0 ≤ x) (hx2 : x < m.width) (hy : 0 ≤ y) (hy2 : y < m.height) :
    P (tileAtD m x y) := by
  rcases tileAtD_mem hWF hx hx2 hy hy2 with ⟨row, hrow, hmem⟩
  exact hm _ hrow _ hmem

lemma neighborCount_water_zero {m : GameMap} (hWF : WF m)
    (hg : AllTiles m fun t => t.type = .GRASS) (x y : ℤ) :
    neighborCount m x y .WATER = 0 := by
  unfold neighborCount
  rw [List.countP_eq_zero]
  intro c hc
  rw [mem_mooreCells] at hc
  have htype : (tileAtD m c.1 c.2).type = .GRASS :=
    tileAtD_type_of_allTiles hWF hg (by omega) (by omega) (by omega) (by omega)
  simp [htype]

lemma allGrass_smoothMap {m : GameMap} (hWF : WF m)
    (hg : AllTiles m fun t => t.type = .GRASS) :
    AllTiles (smoothMap m) fun t => t.type = .GRASS := by
  intro row hrow t ht
  rw [tiles_smoothMap, List.mem_map] at hrow
  rcases hrow with ⟨y, hy, rfl⟩
  rw [List.mem_map] at ht
  rcases ht with ⟨x, hx, rfl⟩
  rw [List.mem_range] at hy hx
  have hcur : (tileAtD m (x : ℤ) (y : ℤ)).type = .GRASS :=
    tileAtD_type_of_allTiles hWF hg (by omega) (by omega) (by omega) (by omega)
  have hnew : smoothNewType m (x : ℤ) (y : ℤ) = .GRASS := by
    unfold smoothNewType
    rw [neighborCount_water_zero hWF hg, hcur]
    norm_num
  rw [hnew, hcur, if_neg (by simp), cloneTile_id, hcur]

lemma allGrass_createEmptyMap (w h : ℤ) :
    AllTiles (createEmptyMap w h) fun t => t.type = .GRASS := by
  intro row hrow t ht
  rw [tiles_createEmptyMap, List.mem_map] at hrow
  rcases hrow with ⟨y, hy, rfl⟩
  rw [List.mem_map] at ht
  rcases ht with ⟨x, hx, rfl⟩
  exact createTile_type _ _ _

lemma allGrass_smoothIter :
    ∀ (k : ℕ) (m : GameMap), WF m → AllTiles m (fun t => t.type = .GRASS) →
      AllTiles (smoothIter k m) fun t => t.type = .GRASS := by
  intro k
  induction k with
  | zero => intro m hWF hg; simpa [smoothIter] using hg
  | succ k ih =>
      intro m hWF hg
      simp only [smoothIter]
      exact ih _ (WF_smoothMap m) (allGrass_smoothMap hWF hg)

/-- C6: generation with all three fractions zero produces an all-Grass grid
for every width ≥ 1, height ≥ 1 and every number of smoothing passes: the
scatter loops run zero iterations and smoothing leaves an all-Grass grid
all-Grass. -/
theorem zero_randomness_all_grass (w h : ℤ) (hw : 1 ≤ w) (hh : 1 ≤ h) (passes : ℕ)
    (r : ℕ → ℚ) :
    ((generateMap w h ⟨0, 0, 0, passes⟩ r).tiles.all fun row =>
      row.all fun t => decide (t.type = .GRASS)) = true := by
  unfold generateMap
  dsimp only
  have h0 : (⌊((w * h : ℤ) : ℚ) * (0 : ℚ)⌋).toNat = 0 := by norm_num
  simp only [h0, scatterWater, scatterSwamp, scatterNoise]
  have main := allGrass_smoothIter passes (createEmptyMap w h) (WF_createEmptyMap w h)
    (allGrass_createEmptyMap w h)
  rw [List.all_eq_true]
  intro row hrow
  rw [List.all_eq_true]
  intro t ht
  simpa using main row hrow t ht

/-- Witness for C6: a 2×2 grid with one smoothing pass. -/
theorem zero_randomness_all_grass_witness :
    ((generateMap 2 2 ⟨0, 0, 0, 1⟩ (fun _ => 0)).tiles.all fun row =>
      row.all fun t => decide (t.type = .GRASS)) = true :=
  zero_randomness_all_grass 2 2 (by norm_num) (by norm_num) 1 (fun _ => 0)

lemma nodup_intRange (a b : ℤ) : (intRange a b).Nodup := by
  unfold intRange
  refine List.Nodup.map ?_ (List.nodup_range _)
  intro p q hpq
  have hpq2 : a + (p : ℤ) = a + (q : ℤ) := hpq
  omega

lemma nodup_mooreOffsets : mooreOffsets.Nodup := by decide

lemma specNeighborCount_eq (m : GameMap) (x y : ℤ) (t : TileType) :
    specNeighborCount m x y t
      = (specCells m x y).countP fun c => decide ((tileAtD m c.1 c.2).type = t) := by
  unfold specNeighborCount specCells
  rw [List.countP_map]
  rfl

lemma mem_specCells {m : GameMap} {x y : ℤ} {c : ℤ × ℤ}
    (hx : 0 ≤ x) (hx2 : x < m.width) (hy : 0 ≤ y) (hy2 : y < m.height) :
    c ∈ specCells m x y ↔
      (max 0 (x - 1) ≤ c.1 ∧ c.1 ≤ min (m.width - 1) (x + 1) ∧
        max 0 (y - 1) ≤ c.2 ∧ c.2 ≤ min (m.height - 1) (y + 1) ∧ ¬(c.1 = x ∧ c.2 = y)) := by
  rcases c with ⟨cx, cy⟩
  unfold specCells
  rw [List.mem_map]
  constructor
  · rintro ⟨o, ho, heq⟩
    rcases o with ⟨o1, o2⟩
    have e1 : x + o1 = cx := congrArg Prod.fst heq
    have e2 : y + o2 = cy := congrArg Prod.snd heq
    rw [List.mem_filter, decide_eq_true_eq] at ho
    rcases ho with ⟨hmem, hP⟩
    have hPa : 0 ≤ x + o1 ∧ x + o1 < m.width ∧ 0 ≤ y + o2 ∧ y + o2 < m.height := hP
    simp only [mooreOffsets, List.mem_cons, Prod.mk.injEq, List.not_mem_nil,
      or_false] at hmem
    dsimp only
    omega
  · rintro ⟨h1, h2, h3, h4, h5⟩
    dsimp only at h1 h2 h3 h4 h5
    refine ⟨(cx - x, cy - y), ?_, by rw [Prod.mk.injEq]; exact ⟨by omega, by omega⟩⟩
    rw [List.mem_filter, decide_eq_true_eq]
    refine ⟨?_, by dsimp only; refine ⟨by omega, by omega, by omega, by omega⟩⟩
    have hdx : cx - x = -1 ∨ cx - x = 0 ∨ cx - x = 1 := by omega
    have hdy : cy - y = -1 ∨ cy - y = 0 ∨ cy - y = 1 := by omega
    have hnz : ¬(cx - x = 0 ∧ cy - y = 0) := by omega
    rcases hdx with hd1 | hd1 | hd1 <;> rcases hdy with hd2 | hd2 | hd2 <;>
      rw [hd1, hd2] <;>
      first
        | decide
        | exact absurd ⟨hd1, hd2⟩ hnz

lemma nodup_specCells (m : GameMap) (x y : ℤ) : (specCells m x y).Nodup := by
  unfold specCells
  refine List.Nodup.map ?_ (List.Nodup.filter _ nodup_mooreOffsets)
  intro a b hab
  rcases a with ⟨a1, a2⟩
  rcases b with ⟨b1, b2⟩
  simp only [Prod.mk.injEq] at hab ⊢
  omega

lemma snd_of_mem_mooreInner {m : GameMap} {x y ny : ℤ} {c : ℤ × ℤ}
    (h : c ∈ (intRange (max 0 (x - 1)) (min (m.width - 1) (x + 1))).filterMap fun nx =>
      if nx = x ∧ ny = y then none else some (nx, ny)) : c.2 = ny := by
  rw [List.mem_filterMap] at h
  rcases h with ⟨nx, -, hif⟩
  split at hif
  · cases hif
  · cases hif
    rfl

lemma nodup_mooreCells (m : GameMap) (x y : ℤ) : (mooreCells m x y).Nodup := by
  unfold mooreCells
  rw [List.nodup_flatMap]
  constructor
  · intro ny hny
    refine List.Nodup.filterMap ?_ (nodup_intRange _ _)
    intro a a' b hb hb'
    rw [Option.mem_def] at hb hb'
    split at hb
    · cases hb
    · split at hb'
      · cases hb'
      · cases hb
        cases hb'
        rfl
  · refine (nodup_intRange _ _).imp ?_
    intro a b hab c hc hc'
    exact hab (by rw [← snd_of_mem_mooreInner hc, ← snd_of_mem_mooreInner hc'])

lemma neighborCount_eq_spec (m : GameMap) (x y : ℤ)
    (hx : 0 ≤ x) (hx2 : x < m.width) (hy : 0 ≤ y) (hy2 : y < m.height) (t : TileType) :
    neighborCount m x y t = specNeighborCount m x y t := by
  rw [specNeighborCount_eq]
  unfold neighborCount
  refine List.Perm.countP_eq _ ?_
  refine List.perm_of_nodup_nodup_toFinset_eq (nodup_mooreCells m x y)
    (nodup_specCells m x y) ?_
  ext c
  rw [List.mem_toFinset, List.mem_toFinset, mem_mooreCells, mem_specCells hx hx2 hy hy2]

lemma getD_range_map {α : Type} (n k : ℕ) (d : α) (f : ℕ → α) (h : k < n) :
    ((List.range n).map f).getD k d = f k := by
  rw [List.getD_eq_getElem _ _ (by simpa using h), List.getElem_map, List.getElem_range]

lemma type_tileAtD_smoothMap (m : GameMap) {x y : ℤ}
    (hx : 0 ≤ x) (hx2 : x < m.width) (hy : 0 ≤ y) (hy2 : y < m.height) :
    (tileAtD (smoothMap m) x y).type = smoothNewType m x y := by
  have hyn : y.toNat < m.height.toNat := by omega
  have hxn : x.toNat < m.width.toNat := by omega
  unfold tileAtD
  rw [if_pos ⟨hx, hy⟩, tiles_smoothMap, getD_range_map _ _ _ _ hyn,
    getD_range_map _ _ _ _ hxn, Int.toNat_of_nonneg hx, Int.toNat_of_nonneg hy]
  split_ifs with hc
  · rw [createTile_type]
  · rw [cloneTile_id]
    push_neg at hc
    exact hc.symm

/-- C5: one smoothing pass decides every in-bounds cell's kind solely from
the pre-pass grid, by the spec's rule over the 8-connected Moore neighborhood
clamped at grid edges: 5+ Water neighbors give Water; else a Grass cell with
2+ Water neighbors becomes Swamp; else a non-Grass cell with 6+ Grass
neighbors becomes Grass; else the kind is unchanged. In particular the Grass
center of `mapSmooth` (exactly two Water neighbors, rest Grass) becomes Swamp
after one pass, and the Water center of `mapAllWater` (all 8 neighbors Water)
stays Water. -/
theorem smoothing_pass_rule (m : GameMap) (hWF : WF m) (x y : ℤ)
    (hx : 0 ≤ x) (hx2 : x < m.width) (hy : 0 ≤ y) (hy2 : y < m.height) :
    ((tileAtD (smoothMap m) x y).type =
      specSmoothRule (tileAtD m x y).type (specNeighborCount m x y .WATER)
        (specNeighborCount m x y .GRASS)) ∧
    (tileAtD (smoothMap mapSmooth) 1 1).type = .SWAMP ∧
    (tileAtD (smoothMap mapAllWater) 1 1).type = .WATER := by
  refine ⟨?_, by decide, by decide⟩
  rw [type_tileAtD_smoothMap m hx hx2 hy hy2]
  unfold smoothNewType specSmoothRule
  rw [neighborCount_eq_spec m x y hx hx2 hy hy2 .WATER,
    neighborCount_eq_spec m x y hx hx2 hy hy2 .GRASS]

/-- Witness for C5: the center cell of the 3×3 `mapSmooth`. -/
theorem smoothing_pass_rule_witness :
    ((tileAtD (smoothMap mapSmooth) 1 1).type =
      specSmoothRule (tileAtD mapSmooth 1 1).type (specNeighborCount mapSmooth 1 1 .WATER)
        (specNeighborCount mapSmooth 1 1 .GRASS)) ∧
    (tileAtD (smoothMap mapSmooth) 1 1).type = .SWAMP ∧
    (tileAtD (smoothMap mapAllWater) 1 1).type = .WATER :=
  smoothing_pass_rule mapSmooth (by decide) 1 1 (by decide) (by decide) (by decide) (by decide)

end Goblin
